import Mathlib

set_option maxHeartbeats 1000000

/-!
Verification development for the hey-buddy recognition backend.

The definitions below are a shallow embedding of
`app/core/face_recognition.py` (face registration, authentication and
removal) and `app/services/emotion_recognition_service.py` together with the
HTTP endpoint `app/api/v1/endpoints/emotion.py` (audio decoding, waveform
normalization and emotion classification).  External collaborators
(the cv2/base64 image decoder, the face_recognition library, librosa,
soundfile, the wav2vec model, the user-record store and the file system)
are passed in as explicit oracle functions or state, so that every
operation of the source becomes a total Lean function of its inputs and
of those collaborators.
-/

namespace HeyBuddy

namespace Face

/-- Characters of a Python string, used where the source manipulates a
string positionally. -/
abbrev PyStr := List Char

/-- Python `s.split(',')`: the comma-separated segments of `s`, in order,
with empty segments kept, exactly as `str.split` behaves with an explicit
separator. -/
def splitComma : PyStr → List PyStr
  | [] => [[]]
  | c :: rest =>
    match splitComma rest with
    | [] => [[]]
    | p :: ps => if c = ',' then [] :: p :: ps else (c :: p) :: ps

/-- Python `base64_string.startswith('data:image')` from
`FaceRecognitionService._base64_to_image`. -/
def startsWithDataImage (s : PyStr) : Bool :=
  List.isPrefixOf ("data:image".toList) s

/-- String-processing part of `FaceRecognitionService._base64_to_image`
(face_recognition.py lines 26-43): when the string starts with
`data:image` the source replaces it by `base64_string.split(',')[1]`
before base64-decoding; `none` models the `IndexError` raised by `[1]`
when there is no second segment, which the surrounding `except` turns
into a `ValueError`.  The base64/cv2 raster decoding that follows is a
collaborator and is represented by the decode oracle of the operations
below. -/
def base64_payload (s : PyStr) : Option PyStr :=
  if startsWithDataImage s then (splitComma s).get? 1 else some s

/-- Everything after the first comma of `s`: the payload as the spec's
words describe it ("strip everything up to and including the first
comma"). -/
def afterFirstComma (s : PyStr) : PyStr :=
  (s.dropWhile (fun c => c ≠ ',')).drop 1

/-- Tolerance 0.6 set in `FaceRecognitionService.__init__`. -/
def tolerance : ℚ := 6 / 10

/-- Sum of squared coordinate differences of two encodings. -/
def sumSqDiff (a b : List ℚ) : ℚ :=
  (List.zipWith (fun x y => (x - y) ^ 2) a b).sum

/-- Euclidean distance between two encodings, the value
`face_recognition.face_distance` (the Euclidean norm of the difference)
computes in `_compare_faces`. -/
noncomputable def face_distance (a b : List ℚ) : ℝ :=
  Real.sqrt ((sumSqDiff a b : ℚ) : ℝ)

/-- `FaceRecognitionService._compare_faces` (lines 84-99): `False` when
the face_recognition library is unavailable, otherwise
`distance <= self.tolerance`.  The comparison is embedded decidably on
the squared distance; `compare_faces_dist` proves this agrees with the
source's comparison of the Euclidean distance against the tolerance. -/
def compare_faces (available : Bool) (enc1 enc2 : List ℚ) : Bool :=
  available && decide (sumSqDiff enc1 enc2 ≤ tolerance ^ 2)

/-- A row of the face-enabled user query in `authenticate_by_face`:
the user id and the (already JSON-parsed) stored encoding. -/
structure UserRow where
  id : Int
  enc : List ℚ
deriving DecidableEq

/-- The comparison loop of `authenticate_by_face` (lines 152-159): walk
the queried users in order and return the first whose stored encoding
compares within tolerance. -/
def scan_users (available : Bool) (probe : List ℚ) : List UserRow → Option UserRow
  | [] => none
  | u :: rest =>
    if compare_faces available probe u.enc then some u
    else scan_users available probe rest

/-- `FaceRecognitionService._get_face_encoding` (lines 45-70): `None`
when the library is unavailable; otherwise the library's detection and
encoding of the first face, represented by the `detect` oracle (`none`
models both the no-face case and a raised detection error, which the
source also maps to `None`). -/
def get_face_encoding {Img : Type} (available : Bool)
    (detect : Img → Option (List ℚ)) (image : Img) : Option (List ℚ) :=
  if available then detect image else none

/-- Path `app/static/faces/face_<id>.jpg` produced by
`FaceRecognitionService._save_face_image`. -/
def face_image_path (user_id : Int) : String :=
  "app/static/faces/face_" ++ toString user_id ++ ".jpg"

/-- Observable outcome of `register_face`: the returned bool, the stored
image files after the call, and the face fields committed to the user
record (`none` when no commit happened). -/
structure RegisterOutcome where
  ok : Bool
  files : List String
  committed : Option (List ℚ × String × Bool)
deriving DecidableEq

/-- `FaceRecognitionService.register_face` (lines 101-131).
`decodeImage` is the result of `_base64_to_image` (`none` models its
`ValueError`, caught by the outer `except` which returns `False`);
`userExists` is whether `crud_user.get` finds the record.  The source
saves the image with `cv2.imwrite` before looking the user up.  The
check `if not face_encoding` uses Python truthiness, so an empty
encoding list is rejected like `None`. -/
def register_face {Img : Type} (available : Bool) (decodeImage : Option Img)
    (detect : Img → Option (List ℚ)) (userExists : Bool)
    (files : List String) (user_id : Int) (enable : Bool) : RegisterOutcome :=
  match decodeImage with
  | none => ⟨false, files, none⟩
  | some image =>
    match get_face_encoding available detect image with
    | none => ⟨false, files, none⟩
    | some e =>
      if e.isEmpty then ⟨false, files, none⟩
      else
        let path := face_image_path user_id
        let files2 := path :: files
        if userExists then ⟨true, files2, some (e, path, enable)⟩
        else ⟨false, files2, none⟩

/-- `FaceRecognitionService.authenticate_by_face` (lines 133-165):
decode the image, extract the probe encoding (`None` or empty gives "no
match"), then scan the face-enabled users in query order. -/
def authenticate_by_face {Img : Type} (available : Bool)
    (decodeImage : Option Img) (detect : Img → Option (List ℚ))
    (users : List UserRow) : Option UserRow :=
  match decodeImage with
  | none => none
  | some image =>
    match get_face_encoding available detect image with
    | none => none
    | some e => if e.isEmpty then none else scan_users available e users

/-- The face fields of a stored user record. -/
structure StoredUser where
  face_encoding : Option (List ℚ)
  face_image_path : Option String
  face_enabled : Bool
deriving DecidableEq

/-- State touched by `remove_face`: the user record looked up by id (if
any) and the stored image files present on disk. -/
structure RemoveState where
  user : Option StoredUser
  files : List String
deriving DecidableEq

/-- Python truthiness of the stored path (`if user.face_image_path`):
`None` and the empty string are falsy. -/
def truthyPath : Option String → Bool
  | none => false
  | some p => !p.isEmpty

/-- `FaceRecognitionService.remove_face` (lines 167-188).  `removeOk`
models whether `os.remove` succeeds; when it raises, the single
surrounding `except` returns `False` before any field is cleared, since
the deletion happens before the field-clearing statements inside the
same `try`. -/
def remove_face (removeOk : Bool) (s : RemoveState) : Bool × RemoveState :=
  match s.user with
  | none => (false, s)
  | some u =>
    let deleteNeeded := truthyPath u.face_image_path &&
      (match u.face_image_path with
       | some p => decide (p ∈ s.files)
       | none => false)
    if deleteNeeded then
      if removeOk then
        let files2 := match u.face_image_path with
          | some p => s.files.erase p
          | none => s.files
        (true, ⟨some ⟨none, none, false⟩, files2⟩)
      else (false, s)
    else (true, ⟨some ⟨none, none, false⟩, s.files⟩)

end Face

namespace Emotion

/-- The fixed label set from `EmotionRecognitionService.__init__`. -/
def emotion_labels : List String :=
  ["angry", "calm", "disgust", "fearful", "happy", "neutral", "sad", "surprised"]

/-- Index of the first maximal element, the behaviour of `np.argmax` used
to pick the dominant emotion. -/
def argmaxIdx : List ℚ → ℕ
  | [] => 0
  | [_] => 0
  | x :: y :: rest =>
    let j := argmaxIdx (y :: rest)
    if (y :: rest).getD j 0 ≤ x then 0 else j + 1

/-- A decoded audio array: `librosa.load` (with its default `mono=True`)
yields a 1-D array, while `soundfile.read` yields a 2-D
`(frames, channels)` array for multi-channel files. -/
inductive Audio
  | mono (samples : List ℚ)
  | multi (rows : List (List ℚ))
deriving DecidableEq

/-- Mean down each column of a 2-D array: `np.mean` over every axis but
the last, which is what `librosa.to_mono` computes; the output has one
entry per column. -/
def columnMeans (rows : List (List ℚ)) : List ℚ :=
  match rows with
  | [] => []
  | r :: _ =>
    (List.range r.length).map
      (fun j => (rows.map (fun row => row.getD j 0)).sum / (rows.length : ℚ))

/-- Lines 122-124 of `_process_audio`: apply `librosa.to_mono` exactly
when the array has more than one axis. -/
def ensure_mono : Audio → List ℚ
  | .mono samples => samples
  | .multi rows => columnMeans rows

/-- External decode and inference collaborators of `_process_audio`, as
functions of the input byte buffer: `librosa.load` at a requested rate
(1-D mono output, `none` models a raised decode error), `soundfile.read`
(native array and rate), `librosa.resample`, and the feature extraction
plus model forward pass (`none` models a raised inference error). -/
structure Collab where
  librosa : List ℕ → ℕ → Option (List ℚ)
  sf : List ℕ → Option (Audio × ℕ)
  resample : List ℚ → ℕ → List ℚ
  infer : List ℚ → Option (List ℚ)

/-- The retry loop of decode method 3:
`for test_sr in [16000, 22050, 44100, 48000]`, first success wins. -/
def tryRates (o : Collab) (data : List ℕ) : List ℕ → Option (List ℚ × ℕ)
  | [] => none
  | r :: rs =>
    match o.librosa data r with
    | some a => some (a, r)
    | none => tryRates o data rs

/-- The decode cascade of `_process_audio` (lines 86-120): librosa at
the hinted rate, then soundfile at its native rate, then librosa at the
fixed rates 16000, 22050, 44100, 48000; `none` when every method
failed. -/
def decodeCascade (o : Collab) (data : List ℕ) (hint : ℕ) : Option (Audio × ℕ) :=
  match o.librosa data hint with
  | some a => some (.mono a, hint)
  | none =>
    match o.sf data with
    | some (a, sr) => some (a, sr)
    | none =>
      match tryRates o data [16000, 22050, 44100, 48000] with
      | some (a, r) => some (.mono a, r)
      | none => none

/-- Lines 126-129 of `_process_audio`: resample to 16 kHz when the
resolved rate differs, then record the rate as 16000. -/
def resample_step (o : Collab) (m : List ℚ) (sr : ℕ) : List ℚ × ℕ :=
  if sr ≠ 16000 then (o.resample m sr, 16000) else (m, sr)

/-- Lines 131-135 of `_process_audio`: right-pad with zeros to the
minimum length of 16000 samples (1 second at 16 kHz). -/
def pad_step (m : List ℚ) : List ℚ :=
  if m.length < 16000 then m ++ List.replicate (16000 - m.length) 0 else m

/-- The post-decode normalization applied to every successful decode:
collapse to mono, resample to 16 kHz, zero-pad to at least one second;
returns the waveform and the resolved sample rate. -/
def normalize (o : Collab) (a : Audio) (sr : ℕ) : List ℚ × ℕ :=
  let p := resample_step o (ensure_mono a) sr
  (pad_step p.1, p.2)

/-- The result dictionary built at the end of `_process_audio`. -/
structure AnalysisResult where
  emotions : List (String × ℚ)
  dominant_emotion : String
  confidence : ℚ
  audio_duration : ℚ
  sample_rate : ℕ
deriving DecidableEq

/-- `EmotionRecognitionService._process_audio` (lines 83-177): decode
via the cascade, normalize, run feature extraction and the model
(softmax probabilities supplied by the `infer` collaborator, one score
per label), and build the result; a raised failure is an `Except.error`
carrying the exception message. -/
def process_audio (o : Collab) (data : List ℕ) (sample_rate : ℕ) :
    Except String AnalysisResult :=
  match decodeCascade o data sample_rate with
  | none => .error "Could not load audio with any method"
  | some (a, sr) =>
    let w := (normalize o a sr).1
    match o.infer w with
    | none => .error "inference failed"
    | some probs =>
      .ok { emotions := emotion_labels.zip probs
            dominant_emotion := emotion_labels.getD (argmaxIdx probs) ""
            confidence := probs.getD (argmaxIdx probs) 0
            audio_duration := (w.length : ℚ) / 16000
            sample_rate := 16000 }

/-- What `process_audio_file` returns to its caller: either the result
dictionary, or the error dictionary it builds when any exception was
raised. -/
inductive ProcResult
  | ok (r : AnalysisResult)
  | errorDict (msg : String)
deriving DecidableEq

/-- `EmotionRecognitionService.process_audio_file` (lines 57-81): load
the model first when it is not loaded (`loadOk` models whether that load
succeeds), then run `_process_audio`; every exception raised anywhere
inside is caught and returned as the error dictionary
`{"error": str(e), "emotions": ..., ...}` — a normal return value, not a
raised error. -/
def process_audio_file (o : Collab) (loaded : Bool) (loadOk : Bool)
    (data : List ℕ) (sample_rate : ℕ) : ProcResult :=
  if !loaded && !loadOk then .errorDict "model load failed"
  else
    match process_audio o data sample_rate with
    | .ok r => .ok r
    | .error m => .errorDict m

/-- Outcome of the HTTP endpoint: a 400 response, a 500 response, or the
success payload. -/
inductive HttpOutcome
  | badRequest (detail : String)
  | serverError (detail : String)
  | success (r : AnalysisResult)
deriving DecidableEq

/-- The content-type guard of `analyze_audio_emotion`:
`if not audio_file.content_type or not audio_file.content_type.startswith('audio/')`. -/
def validContentType : Option (List Char) → Bool
  | none => false
  | some ct => List.isPrefixOf ("audio/".toList) ct

/-- Endpoint `analyze_audio_emotion` (emotion.py lines 55-107): reject a
non-audio content type and empty data with 400 responses, call
`process_audio_file` with the default 16000 hint, turn an error-marked
result into a 500 response, otherwise answer with the result. -/
def analyze_audio_emotion (o : Collab) (loaded loadOk : Bool)
    (contentType : Option (List Char)) (data : List ℕ) : HttpOutcome :=
  if !validContentType contentType then
    .badRequest "Invalid file type. Please upload an audio file."
  else if data.length = 0 then .badRequest "Empty audio file"
  else
    match process_audio_file o loaded loadOk data 16000 with
    | .errorDict m => .serverError ("Error processing audio: " ++ m)
    | .ok r => .success r

/-- Model-loading state of the service singleton: whether
`self.model`/`self.feature_extractor` are set, and how many times
`_load_model` has run. -/
structure SvcState where
  loaded : Bool
  loadCount : ℕ
deriving DecidableEq

/-- `EmotionRecognitionService.initialize_model` (lines 25-45): it runs
`_load_model` unconditionally — there is no already-loaded check — and
on success assigns the model; on failure (`loadOk = false`) it re-raises
with the fields left as they were. -/
def init_model (loadOk : Bool) (s : SvcState) : SvcState :=
  if loadOk then ⟨true, s.loadCount + 1⟩ else ⟨s.loaded, s.loadCount + 1⟩

/-- Lines 60-61 of `process_audio_file`:
`if not self.model or not self.feature_extractor: await self.initialize_model()`. -/
def ensure_init (loadOk : Bool) (s : SvcState) : SvcState :=
  if s.loaded then s else init_model loadOk s

/-- The spec's ordered strategy list for the decode cascade: primary
codec at the hint, secondary codec at its native rate, then primary at
the four fixed rates, in that order. -/
def cascadeStrategies (o : Collab) (data : List ℕ) (hint : ℕ) :
    List (Option (Audio × ℕ)) :=
  [(o.librosa data hint).map (fun a => (.mono a, hint)),
   o.sf data,
   (o.librosa data 16000).map (fun a => (.mono a, 16000)),
   (o.librosa data 22050).map (fun a => (.mono a, 22050)),
   (o.librosa data 44100).map (fun a => (.mono a, 44100)),
   (o.librosa data 48000).map (fun a => (.mono a, 48000))]

/-- First successful entry of an ordered list of strategy outcomes. -/
def firstSome {α : Type} : List (Option α) → Option α
  | [] => none
  | o :: os =>
    match o with
    | some a => some a
    | none => firstSome os

/-- The decode cascade as the spec words it: run the ordered strategies,
first success wins. -/
def cascadeSpec (o : Collab) (data : List ℕ) (hint : ℕ) : Option (Audio × ℕ) :=
  firstSome (cascadeStrategies o data hint)

/-- Collaborator set in which every decode and inference call fails,
and resampling is the identity. -/
def trivCollab : Collab :=
  ⟨fun _ _ => none, fun _ => none, fun m _ => m, fun _ => none⟩

/-- A stereo buffer as `soundfile.read` returns it: 3 frames of 2
channels, in `(frames, channels)` layout. -/
def stereoRows : List (List ℚ) := [[1, 2], [3, 4], [5, 6]]

/-- Collaborator set in which librosa always fails and soundfile decodes
the stereo buffer `stereoRows` at 16 kHz. -/
def sfStereoCollab : Collab :=
  ⟨fun _ _ => none, fun _ => some (.multi stereoRows, 16000),
   fun m _ => m, fun _ => none⟩

end Emotion

namespace Face

theorem splitComma_ne_nil (s : PyStr) : splitComma s ≠ [] := by
  cases s with
  | nil => simp [splitComma]
  | cons c rest =>
    simp only [splitComma]
    cases h : splitComma rest with
    | nil => simp
    | cons p ps => by_cases hc : c = ',' <;> simp [hc]

theorem splitComma_head (s : PyStr) :
    ∃ r, splitComma s = s.takeWhile (fun c => c ≠ ',') :: r := by
  induction s with
  | nil => exact ⟨[], rfl⟩
  | cons c rest ih =>
    obtain ⟨r, hr⟩ := ih
    by_cases hc : c = ','
    · subst hc
      exact ⟨rest.takeWhile (fun x => x ≠ ',') :: r,
        by simp [splitComma, hr, List.takeWhile_cons]⟩
    · exact ⟨r, by simp [splitComma, hr, List.takeWhile_cons, hc]⟩

theorem splitComma_append_comma (h t : PyStr) (hh : ',' ∉ h) :
    splitComma (h ++ ',' :: t) = h :: splitComma t := by
  induction h with
  | nil =>
    obtain ⟨r, hr⟩ := splitComma_head t
    simp [splitComma, hr]
  | cons c h ih =>
    have hc : c ≠ ',' := fun e => hh (by simp [e])
    have hh2 : ',' ∉ h := fun m => hh (List.mem_cons_of_mem _ m)
    simp [splitComma, ih hh2, hc]

/-- C8 counterexample: on the input `data:image,a,b` the source decodes
the segment between the first and second commas (`a`), not everything
after the first comma (`a,b`), so the claim's description of the decoded
payload is false. -/
theorem c8_payload_counterexample :
    base64_payload ("data:image,a,b".toList) = some ("a".toList)
    ∧ afterFirstComma ("data:image,a,b".toList) = "a,b".toList
    ∧ ("a".toList : PyStr) ≠ "a,b".toList := by
  refine ⟨by decide, by decide, by decide⟩

/-- C8 (amended): a string starting with `data:image` is split at the
commas and the second segment — the part strictly between the first and
second comma (up to the end when there is no second comma) — is the
payload that gets decoded; strings without that marker are decoded
unchanged. -/
theorem base64_payload_spec (s h t : PyStr) :
    (startsWithDataImage s = false → base64_payload s = some s)
    ∧ (',' ∉ h → startsWithDataImage (h ++ ',' :: t) = true →
        base64_payload (h ++ ',' :: t)
          = some (t.takeWhile (fun c => c ≠ ','))) := by
  constructor
  · intro hs
    simp [base64_payload, hs]
  · intro hh hpre
    obtain ⟨r, hr⟩ := splitComma_head t
    simp [base64_payload, hpre, splitComma_append_comma h t hh, hr]

/-- Concrete instance of the amended C8 statement: a plain base64 string
passes through unchanged, and a data-URL-marked string is reduced to its
payload. -/
theorem base64_payload_spec_witness :
    base64_payload ("QUJD".toList) = some ("QUJD".toList)
    ∧ base64_payload ("data:image;base64".toList ++ ',' :: "QUJD".toList)
        = some ("QUJD".toList) := by
  constructor
  · exact (base64_payload_spec ("QUJD".toList) [] []).1 (by decide)
  · have h2 := (base64_payload_spec [] ("data:image;base64".toList)
      ("QUJD".toList)).2 (by decide) (by decide)
    rw [h2]
    decide

theorem sumSqDiff_nonneg : ∀ a b : List ℚ, 0 ≤ sumSqDiff a b
  | [], _ => by simp [sumSqDiff]
  | _ :: _, [] => by simp [sumSqDiff]
  | x :: a, y :: b => by
    have ih := sumSqDiff_nonneg a b
    simp only [sumSqDiff, List.zipWith_cons_cons, List.sum_cons] at ih ⊢
    have hsq : (0 : ℚ) ≤ (x - y) ^ 2 := sq_nonneg _
    linarith

/-- The decidable comparison on the squared distance agrees with the
source's comparison of the Euclidean distance against the tolerance. -/
theorem compare_faces_dist (a b : List ℚ) :
    compare_faces true a b = true ↔ face_distance a b ≤ ((tolerance : ℚ) : ℝ) := by
  have h0 : (0 : ℝ) ≤ ((tolerance : ℚ) : ℝ) := by
    norm_num [tolerance]
  unfold compare_faces face_distance
  rw [Real.sqrt_le_left h0]
  have hcast : (((tolerance : ℚ) : ℝ)) ^ 2 = (((tolerance ^ 2 : ℚ)) : ℝ) := by
    push_cast
    ring
  rw [hcast, Rat.cast_le]
  simp

theorem scan_users_eq_find (available : Bool) (probe : List ℚ)
    (users : List UserRow) :
    scan_users available probe users
      = users.find? (fun u => compare_faces available probe u.enc) := by
  induction users with
  | nil => rfl
  | cons u rest ih =>
    cases h : compare_faces available probe u.enc <;>
      simp [scan_users, List.find?, h, ih]

/-- C3: the matcher walks the face-enabled users in order and returns
the first candidate whose stored encoding lies within Euclidean distance
0.6 of the probe (distance exactly 0.6 matches, anything strictly
greater does not), stopping there; an empty list or no candidate within
tolerance gives no match. -/
theorem face_matcher_first_match (probe : List ℚ) (users : List UserRow)
    (a b : List ℚ) :
    scan_users true probe users
      = users.find? (fun u => compare_faces true probe u.enc)
    ∧ (compare_faces true a b = true ↔ face_distance a b ≤ ((tolerance : ℚ) : ℝ))
    ∧ scan_users true probe ([] : List UserRow) = none
    ∧ ((∀ u ∈ users, ¬ face_distance probe u.enc ≤ ((tolerance : ℚ) : ℝ)) →
        scan_users true probe users = none) := by
  refine ⟨scan_users_eq_find true probe users, compare_faces_dist a b, rfl, ?_⟩
  intro hall
  rw [scan_users_eq_find]
  rw [List.find?_eq_none]
  intro u hu hcf
  exact hall u hu ((compare_faces_dist probe u.enc).mp hcf)

/-- Concrete instance of C3: with a probe at distance exactly 0.6 from
the first stored encoding, the first user is returned even though the
second is an exact match, and a probe far from every encoding gives no
match. -/
theorem face_matcher_first_match_witness :
    scan_users true [0] [⟨1, [3/5]⟩, ⟨2, [0]⟩] = some ⟨1, [3/5]⟩
    ∧ face_distance [0] [3/5] ≤ ((tolerance : ℚ) : ℝ)
    ∧ scan_users true [7] [⟨3, [2]⟩] = none := by
  have h := face_matcher_first_match [0] [⟨1, [3/5]⟩, ⟨2, [0]⟩] [0] [3/5]
  have h2 := face_matcher_first_match [7] [⟨3, [2]⟩] [7] [2]
  have hc1 : compare_faces true [0] [3/5] = true := by
    simp only [compare_faces, Bool.true_and, decide_eq_true_eq, sumSqDiff,
      tolerance, List.zipWith_cons_cons, List.zipWith_nil_right,
      List.sum_cons, List.sum_nil]
    norm_num
  have hc2 : compare_faces true [7] [2] = false := by
    simp only [compare_faces, Bool.true_and, decide_eq_false_iff_not,
      decide_eq_true_eq, sumSqDiff, tolerance, List.zipWith_cons_cons,
      List.zipWith_nil_right, List.sum_cons, List.sum_nil]
    norm_num
  refine ⟨?_, ?_, ?_⟩
  · rw [h.1]
    simp [List.find?, hc1]
  · exact h.2.1.mp hc1
  · refine h2.2.2.2 ?_
    intro u hu
    have hu2 : u = (⟨3, [2]⟩ : UserRow) := by simpa using hu
    subst hu2
    intro hle
    have hc := (h2.2.1).mpr hle
    exact absurd hc (by simp [hc2])

/-- C7 counterexample: with the user present, a stored image file on
disk, and a deletion call that raises, the whole removal aborts inside
the single `try` block — it returns `False` and none of the three fields
is cleared, contradicting the claim that a deletion failure does not
abort the rest of the removal. -/
theorem c7_remove_face_counterexample :
    remove_face false ⟨some ⟨some [1], some "p", true⟩, ["p"]⟩
      = (false, ⟨some ⟨some [1], some "p", true⟩, ["p"]⟩)
    ∧ (⟨some [1], some "p", true⟩ : StoredUser).face_encoding ≠ none := by
  refine ⟨by decide, by decide⟩

/-- C7 (amended): when the user record exists, removal clears the
embedding, image path and enabled flag and reports true whenever there
is no stored file to delete (falsy path or file absent) or the deletion
call succeeds (in which case the file is removed); but when the deletion
call itself fails, the removal aborts: it returns false and clears
nothing. -/
theorem remove_face_behavior (removeOk : Bool) (s : RemoveState)
    (u : StoredUser) (hu : s.user = some u) :
    (truthyPath u.face_image_path = false →
      remove_face removeOk s = (true, ⟨some ⟨none, none, false⟩, s.files⟩))
    ∧ (∀ p, u.face_image_path = some p → p ∉ s.files →
      remove_face removeOk s = (true, ⟨some ⟨none, none, false⟩, s.files⟩))
    ∧ (∀ p, u.face_image_path = some p → p.isEmpty = false → p ∈ s.files →
      remove_face true s = (true, ⟨some ⟨none, none, false⟩, s.files.erase p⟩)
      ∧ remove_face false s = (false, s)) := by
  refine ⟨?_, ?_, ?_⟩
  · intro hf
    simp [remove_face, hu, hf]
  · intro p hp hmem
    simp [remove_face, hu, hp, hmem]
  · intro p hp hne hmem
    constructor
    · simp [remove_face, hu, hp, truthyPath, hne, hmem]
    · simp [remove_face, hu, hp, truthyPath, hne, hmem]

/-- Concrete instance of the amended C7 statement: a successful deletion
clears the fields and removes the file; a raising deletion leaves the
record untouched and reports false. -/
theorem remove_face_behavior_witness :
    remove_face true ⟨some ⟨some [2], some "q", true⟩, ["q"]⟩
      = (true, ⟨some ⟨none, none, false⟩, []⟩)
    ∧ remove_face false ⟨some ⟨some [2], some "q", true⟩, ["q"]⟩
      = (false, ⟨some ⟨some [2], some "q", true⟩, ["q"]⟩) := by
  have h := remove_face_behavior true ⟨some ⟨some [2], some "q", true⟩, ["q"]⟩
    ⟨some [2], some "q", true⟩ rfl
  have h3 := h.2.2 "q" rfl (by decide) (by decide)
  constructor
  · rw [h3.1]; decide
  · exact h3.2

/-- C9: registration writes the face image to disk before the user
lookup, so for a user id with no user record the call returns false
while the image file for that id has already been stored and is not
removed. -/
theorem register_face_saves_before_user_check {Img : Type}
    (available : Bool) (decodeImage : Option Img)
    (detect : Img → Option (List ℚ)) (files : List String)
    (user_id : Int) (enable : Bool) (image : Img) (e : List ℚ)
    (hdec : decodeImage = some image)
    (henc : get_face_encoding available detect image = some e)
    (hne : e.isEmpty = false) :
    register_face available decodeImage detect false files user_id enable
      = ⟨false, face_image_path user_id :: files, none⟩
    ∧ face_image_path user_id ∈
        (register_face available decodeImage detect false files user_id
          enable).files := by
  subst hdec
  have h1 : register_face available (some image) detect false files user_id
      enable = ⟨false, face_image_path user_id :: files, none⟩ := by
    simp [register_face, henc, hne]
  exact ⟨h1, by rw [h1]; exact List.mem_cons_self _ _⟩

/-- Concrete instance of C9: a decodable image with a detectable face
and a missing user record leaves the saved file behind. -/
theorem register_face_saves_before_user_check_witness :
    register_face true (some ()) (fun _ => some [1]) false [] 7 true
      = ⟨false, [face_image_path 7], none⟩ :=
  (register_face_saves_before_user_check true (some ()) (fun _ => some [1])
    [] 7 true () [1] rfl rfl rfl).1

/-- C10: with the face_recognition library unavailable, encoding
extraction returns the no-encoding result for every image, registration
returns false with no side effect, and authentication returns no match —
outcome for outcome identical to a genuine no-face result with the
library available. -/
theorem unavailable_library_silent_negative {Img : Type}
    (decodeImage : Option Img) (detect : Img → Option (List ℚ))
    (users : List UserRow) (userExists : Bool) (files : List String)
    (user_id : Int) (enable : Bool) (image : Img) :
    get_face_encoding false detect image = none
    ∧ register_face false decodeImage detect userExists files user_id enable
        = ⟨false, files, none⟩
    ∧ authenticate_by_face false decodeImage detect users = none
    ∧ register_face false decodeImage detect userExists files user_id enable
        = register_face true decodeImage (fun _ => none) userExists files
            user_id enable
    ∧ authenticate_by_face false decodeImage detect users
        = authenticate_by_face true decodeImage (fun _ => none) users := by
  refine ⟨rfl, ?_, ?_, ?_, ?_⟩ <;>
    cases decodeImage <;>
      simp [register_face, authenticate_by_face, get_face_encoding]

/-- Concrete instance of C10: registration with the library unavailable
returns false and leaves the file store untouched. -/
theorem unavailable_library_silent_negative_witness :
    register_face false (some ()) (fun _ => some [1]) true [] 3 true
      = ⟨false, [], none⟩ :=
  (unavailable_library_silent_negative (some ()) (fun _ => some [1]) []
    true [] 3 true ()).2.1

end Face

namespace Emotion

theorem pad_step_ge (m : List ℚ) : 16000 ≤ (pad_step m).length := by
  unfold pad_step
  split
  · simp only [List.length_append, List.length_replicate]
    omega
  · omega

theorem pad_step_of_lt (m : List ℚ) (h : m.length < 16000) :
    pad_step m = m ++ List.replicate (16000 - m.length) 0 := by
  simp [pad_step, h]

theorem pad_step_of_ge (m : List ℚ) (h : 16000 ≤ m.length) :
    pad_step m = m := by
  simp [pad_step, Nat.not_lt.mpr h]

/-- C2: normalization always reports a 16000 Hz rate and yields at least
16000 samples; decoded mono audio at 16 kHz shorter than one second
comes out as exactly 16000 samples — the original samples first, zeros
after — and audio already one second or longer passes through the
padding step unmodified. -/
theorem normalize_invariants (o : Collab) (a : Audio) (sr : ℕ) :
    (normalize o a sr).2 = 16000
    ∧ 16000 ≤ (normalize o a sr).1.length
    ∧ (∀ s : List ℚ, a = .mono s → sr = 16000 → s.length < 16000 →
        (normalize o a sr).1 = s ++ List.replicate (16000 - s.length) 0
        ∧ (normalize o a sr).1.length = 16000)
    ∧ (∀ m r, resample_step o (ensure_mono a) sr = (m, r) →
        16000 ≤ m.length → (normalize o a sr).1 = m) := by
  refine ⟨?_, ?_, ?_, ?_⟩
  · unfold normalize resample_step
    by_cases h : sr = 16000 <;> simp [h]
  · exact pad_step_ge _
  · intro s hs hsr hlen
    subst hs
    subst hsr
    have hres : resample_step o (ensure_mono (Audio.mono s)) 16000
        = (s, 16000) := by
      simp [resample_step, ensure_mono]
    constructor
    · simp [normalize, hres, pad_step_of_lt s hlen]
    · simp [normalize, hres, pad_step_of_lt s hlen]
      omega
  · intro m r hres hlen
    simp [normalize, hres, pad_step_of_ge m hlen]

/-- Concrete instance of C2: a 3-sample mono clip at 16 kHz is padded to
exactly 16000 samples, original samples first. -/
theorem normalize_invariants_witness :
    (normalize trivCollab (.mono [1, 2, 3]) 16000).1
      = [1, 2, 3] ++ List.replicate 15997 0
    ∧ (normalize trivCollab (.mono [1, 2, 3]) 16000).2 = 16000 := by
  have h := normalize_invariants trivCollab (.mono [1, 2, 3]) 16000
  exact ⟨(h.2.2.1 [1, 2, 3] rfl rfl (by norm_num)).1, h.1⟩

/-- C5: the decode cascade equals the spec's ordered strategy list with
first-success-wins semantics — primary codec at the hint, secondary
codec at its native rate, then primary at 16000, 22050, 44100, 48000 in
that order — and when every strategy fails the processing step fails
with the decode error. -/
theorem decode_cascade_order (o : Collab) (data : List ℕ) (hint : ℕ) :
    decodeCascade o data hint = cascadeSpec o data hint
    ∧ (decodeCascade o data hint = none →
        process_audio o data hint
          = .error "Could not load audio with any method") := by
  constructor
  · cases h1 : o.librosa data hint <;>
      cases h2 : o.sf data <;>
        cases h3 : o.librosa data 16000 <;>
          cases h4 : o.librosa data 22050 <;>
            cases h5 : o.librosa data 44100 <;>
              cases h6 : o.librosa data 48000 <;>
                simp [decodeCascade, cascadeSpec, cascadeStrategies,
                  firstSome, tryRates, h1, h2, h3, h4, h5, h6]
  · intro h
    simp [process_audio, h]

/-- Concrete instance of C5: when every decode strategy fails the
processing step reports the decode failure. -/
theorem decode_cascade_order_witness :
    process_audio trivCollab [0] 16000
      = .error "Could not load audio with any method" :=
  (decode_cascade_order trivCollab [0] 16000).2 rfl

/-- C6 evaluated at its failing input: librosa fails, soundfile decodes
a 3-frame stereo buffer in its `(frames, channels)` layout, and the mono
collapse step (`librosa.to_mono`, which averages every axis but the
last) produces 2 samples — one per channel, the frames averaged away —
instead of the 3 samples one channel of the input holds. -/
theorem stereo_mono_wrong_axis :
    decodeCascade sfStereoCollab [0] 16000
      = some (.multi stereoRows, 16000)
    ∧ ensure_mono (.multi stereoRows) = [3, 4]
    ∧ (ensure_mono (.multi stereoRows)).length = 2
    ∧ stereoRows.length = 3
    ∧ (ensure_mono (.multi stereoRows)).length ≠ stereoRows.length := by
  have hm : ensure_mono (.multi stereoRows) = [3, 4] := by
    simp only [ensure_mono, stereoRows, columnMeans]
    norm_num [List.range_succ]
  refine ⟨rfl, hm, by rw [hm]; rfl, rfl, by rw [hm]; simp [stereoRows]⟩

/-- C4 counterexample: calling `initialize_model` with the model already
loaded performs another load — the load count rises from 1 to 2 — so the
underlying load is not executed exactly once per process and an
already-loaded call is not a no-op. -/
theorem c4_init_counterexample :
    init_model true ⟨true, 1⟩ = ⟨true, 2⟩
    ∧ (⟨true, 2⟩ : SvcState) ≠ ⟨true, 1⟩ := by
  exact ⟨rfl, by decide⟩

/-- C4 (amended): only the guard inside `process_audio_file` is
idempotent — it skips initialization when the model is loaded, so any
number of classification calls performs at most one load — while a
direct `initialize_model` call always runs the load again. -/
theorem ensure_init_idempotent (loadOk : Bool) (s : SvcState) (n : ℕ) :
    (s.loaded = true → ensure_init loadOk s = s)
    ∧ (init_model loadOk s).loadCount = s.loadCount + 1
    ∧ (ensure_init true)^[n] (ensure_init true s) = ensure_init true s
    ∧ (ensure_init true s).loadCount ≤ s.loadCount + 1 := by
  have hl : (ensure_init true s).loaded = true := by
    unfold ensure_init init_model
    by_cases h : s.loaded <;> simp [h]
  have hstep : ∀ t : SvcState, t.loaded = true → ensure_init true t = t :=
    fun t ht => by simp [ensure_init, ht]
  have hfix : ensure_init true (ensure_init true s) = ensure_init true s :=
    hstep _ hl
  refine ⟨?_, ?_, Function.iterate_fixed hfix n, ?_⟩
  · intro h
    simp [ensure_init, h]
  · unfold init_model
    by_cases h : loadOk <;> simp [h]
  · unfold ensure_init init_model
    by_cases h : s.loaded <;> simp [h]

/-- Concrete instance of the amended C4 statement: a loaded service
skips initialization, and a load attempt increments the load count. -/
theorem ensure_init_idempotent_witness :
    ensure_init true ⟨true, 1⟩ = ⟨true, 1⟩
    ∧ (init_model true ⟨false, 0⟩).loadCount = 1 :=
  ⟨(ensure_init_idempotent true ⟨true, 1⟩ 0).1 rfl,
   (ensure_init_idempotent true ⟨false, 0⟩ 0).2.1⟩

/-- C1 counterexample: for the non-empty input `[0]`, with every decode
strategy failing, `process_audio_file` returns the error dictionary as a
normal result value instead of raising — contradicting the claim that no
failure is returned as a normal result. -/
theorem c1_error_dict_counterexample :
    process_audio_file trivCollab true true [0] 16000
      = .errorDict "Could not load audio with any method" := rfl

/-- C1 (amended): every decode, load or inference failure inside the
classify-audio service is caught and returned as an error-marked result
value rather than raised; the endpoint rejects a non-audio content type
and empty input with 400 responses, converts an error-marked result into
a 500 response, and answers success otherwise — so no failure propagates
as an unhandled fault, but the service has no distinct
DecodeError/InferenceError/ValidationError raises. -/
theorem classify_audio_error_handling (o : Collab) (loaded loadOk : Bool)
    (ct : Option (List Char)) (data : List ℕ) :
    (validContentType ct = false →
      analyze_audio_emotion o loaded loadOk ct data
        = .badRequest "Invalid file type. Please upload an audio file.")
    ∧ (validContentType ct = true → data.length = 0 →
      analyze_audio_emotion o loaded loadOk ct data
        = .badRequest "Empty audio file")
    ∧ (∀ m, validContentType ct = true → data.length ≠ 0 →
        process_audio_file o loaded loadOk data 16000 = .errorDict m →
        analyze_audio_emotion o loaded loadOk ct data
          = .serverError ("Error processing audio: " ++ m))
    ∧ (∀ r, validContentType ct = true → data.length ≠ 0 →
        process_audio_file o loaded loadOk data 16000 = .ok r →
        analyze_audio_emotion o loaded loadOk ct data = .success r)
    ∧ ((∃ m, process_audio_file o loaded loadOk data 16000 = .errorDict m)
        ∨ (∃ r, process_audio_file o loaded loadOk data 16000 = .ok r)) := by
  refine ⟨?_, ?_, ?_, ?_, ?_⟩
  · intro h
    simp [analyze_audio_emotion, h]
  · intro h hlen
    simp [analyze_audio_emotion, h, hlen]
  · intro m h hlen hp
    simp [analyze_audio_emotion, h, hlen, hp]
  · intro r h hlen hp
    simp [analyze_audio_emotion, h, hlen, hp]
  · cases hp : process_audio_file o loaded loadOk data 16000 with
    | ok r => exact Or.inr ⟨r, rfl⟩
    | errorDict m => exact Or.inl ⟨m, rfl⟩

/-- Concrete instance of the amended C1 statement: empty input gets the
400 validation response; a non-empty undecodable input gets the 500
response carrying the decode message. -/
theorem classify_audio_error_handling_witness :
    analyze_audio_emotion trivCollab true true (some ("audio/wav".toList)) []
      = .badRequest "Empty audio file"
    ∧ analyze_audio_emotion trivCollab true true (some ("audio/wav".toList))
        [0]
      = .serverError
          ("Error processing audio: " ++ "Could not load audio with any method") := by
  constructor
  · exact (classify_audio_error_handling trivCollab true true
      (some ("audio/wav".toList)) []).2.1 (by decide) rfl
  · exact (classify_audio_error_handling trivCollab true true
      (some ("audio/wav".toList)) [0]).2.2.1
      "Could not load audio with any method" (by decide) (by decide) rfl

end Emotion

end HeyBuddy
